import Mathlib

/-!
Shallow embedding of the SriAndhraValmiki media/content backend core:
the cascade deletion engine (`contentRoutes.js`, `galleryRoutes.js`) and
the OTP authentication state machine (`authentication.js`).

Conventions of the embedding:
* the document database is a record of lists; `findOne` is `List.find?`,
  `deleteMany(filter)` is `List.filter` with the negated predicate,
  `updateMany`/`save` are `List.map` replacing the matching records;
* the on-disk blob store is a `List String` of file paths;
* machine timestamps are `Nat` milliseconds;
* the SHA-256 OTP digest is modelled as the data it commits to (an
  injective constructor), and a bcrypt hash as the password it was
  derived from — standard idealizations of collision-free hashing;
* randomness (`generateOtp`) and collaborator success (mail/SMS
  delivery, `fs.unlink`) are explicit parameters;
* each deletion route also returns the list of observable side-effect
  events (blob unlink, recursive directory removal, record deletion) in
  the order the source performs them.
-/

namespace SAV

/-- ASCII whitespace, modelling the characters the JavaScript `\s` class
and `String.prototype.trim` treat as space on the inputs of interest. -/
def isJsSpace (c : Char) : Bool :=
  c = ' ' || c = '\t' || c = '\n' || c = '\r' || c = '\x0b' || c = '\x0c'

/-- `String.prototype.trim`. -/
def jsTrim (s : String) : String :=
  ⟨((s.data.dropWhile isJsSpace).reverse.dropWhile isJsSpace).reverse⟩

/-- ASCII lowering, modelling `String.prototype.toLowerCase` on the
identifiers of interest. -/
def lowerChar (c : Char) : Char :=
  if 'A' ≤ c ∧ c ≤ 'Z' then Char.ofNat (c.toNat + 32) else c

/-- `String.prototype.toLowerCase`. -/
def jsLower (s : String) : String :=
  ⟨s.data.map lowerChar⟩

/-- `normalizeEmail` from authentication.js: trim then lowercase. -/
def normalizeEmail (email : String) : String :=
  jsLower (jsTrim email)

/-- `normalizePhone` from authentication.js: trim only. -/
def normalizePhone (phone : String) : String :=
  jsTrim phone

/-- A character allowed by the regex class `[^\s@]`. -/
def emailChar (c : Char) : Bool :=
  !(isJsSpace c) && c ≠ '@'

/-- Whether a character list contains a `'.'` that is neither its first
nor its last element (the `[^\s@]+\.[^\s@]+` split point). -/
def hasInnerDot (l : List Char) : Bool :=
  ((l.drop 1).dropLast).contains '.'

/-- Split a character list at every occurrence of `sep`. -/
def splitChar (sep : Char) : List Char → List (List Char)
  | [] => [[]]
  | c :: rest =>
    let r := splitChar sep rest
    if c = sep then [] :: r
    else
      match r with
      | h :: t => (c :: h) :: t
      | [] => [[c]]

/-- `isEmail` from authentication.js: the regex
`/^[^\s@]+@[^\s@]+\.[^\s@]+$/` applied to the trimmed value.  The string
must be `local@rest` with exactly one `@`, both sides nonempty and free
of whitespace and `@`, and `rest` must contain an inner dot. -/
def isEmail (v : String) : Bool :=
  match splitChar '@' (jsTrim v).data with
  | [a, b] =>
    !a.isEmpty && a.all emailChar &&
    !b.isEmpty && b.all emailChar && hasInnerDot b
  | _ => false

/-- `isE164` from authentication.js: the regex `/^\+\d{8,15}$/` applied
to the trimmed value. -/
def isE164 (v : String) : Bool :=
  match (jsTrim v).data with
  | '+' :: ds => ds.all Char.isDigit && decide (8 ≤ ds.length) && decide (ds.length ≤ 15)
  | _ => false

/-- `passwordOk` from authentication.js. -/
def passwordOk (p : String) : Bool :=
  decide (p.length ≥ 8)

/-- The reserved static admin email (`STATIC_ADMIN_EMAIL_FINAL`). -/
def STATIC_ADMIN_EMAIL_FINAL : String := "sriandhravalmiki@gmail.com"

/-- The reserved static admin password (`STATIC_ADMIN_PASSWORD_FINAL`). -/
def STATIC_ADMIN_PASSWORD_FINAL : String := "rama@2026"

/-- The token payload of `signToken({userId, role, email, phone})`,
modelled as its claims (signing is opaque). -/
structure Token where
  userId : String
  role : String
  email : Option String
  phone : Option String
deriving Repr, DecidableEq

/-- The uniform response envelope: HTTP status plus the parts of the JSON
body the specification talks about. -/
structure ApiResult where
  status : Nat
  error : Option String
  otpRequired : Option Bool
  token : Option Token
deriving Repr, DecidableEq

/-- An error response `res.status(status).json({success:false, error:msg})`. -/
def errResp (status : Nat) (msg : String) : ApiResult :=
  ⟨status, some msg, none, none⟩

/-- A plain success response `res.json({success:true, ...})`. -/
def okResp : ApiResult :=
  ⟨200, none, none, none⟩

/-- `deleteArticle` and friends: cascade content model (contentRoutes.js). -/
structure Article where
  id : String
  title : String
deriving Repr, DecidableEq

structure Chapter where
  id : String
  articleId : String
deriving Repr, DecidableEq

structure Topic where
  id : String
  chapterId : String
deriving Repr, DecidableEq

structure Content where
  id : String
  topicId : String
deriving Repr, DecidableEq

/-- `PdfSchema.parentType` enum. -/
inductive ParentType where
  | article
  | chapter
  | topic
  | content
deriving Repr, DecidableEq

structure Pdf where
  id : String
  parentType : ParentType
  parentId : String
  fileName : String
deriving Repr, DecidableEq

/-- The content collections of the entity store. -/
structure ContentDb where
  articles : List Article
  chapters : List Chapter
  topics : List Topic
  contents : List Content
  pdfs : List Pdf
deriving Repr, DecidableEq

/-- Observable side effects of a deletion route, in execution order. -/
inductive FsEv where
  /-- a single blob unlink (`safeUnlink` / `fs.unlinkSync`) -/
  | unlink (path : String)
  /-- `fs.rmSync(dir, {recursive:true, force:true})` -/
  | rmDirRec (path : String)
  /-- deletion of one database record -/
  | delRec (kind : String) (id : String)
deriving Repr, DecidableEq

/-- Result bundle of a deletion route: post store, post blob store,
event trace, response. -/
structure DelOut (α : Type) where
  db : α
  files : List String
  trace : List FsEv
  resp : ApiResult
deriving Repr, DecidableEq

/-- Disk path of a stored PDF (`path.join(PDF_DIR, fileName)`). -/
def pdfPath (fileName : String) : String :=
  "uploads/pdfs/" ++ fileName

/-- `safeUnlink`: if the file exists, try to unlink it; a failing unlink
(`unlinkOk` false) is logged and swallowed, never surfaced. -/
def safeUnlinkFs (unlinkOk : String → Bool) (files : List String) (p : String) : List String :=
  if files.contains p && unlinkOk p then files.erase p else files

/-- Fold `safeUnlink` over a list of PDFs. -/
def unlinkPdfs (unlinkOk : String → Bool) (files : List String) (pdfs : List Pdf) : List String :=
  pdfs.foldl (fun fs p => safeUnlinkFs unlinkOk fs (pdfPath p.fileName)) files

/-- Ids of the chapters of an article (`Chapter.find({articleId})`). -/
def articleChapterIds (db : ContentDb) (articleId : String) : List String :=
  (db.chapters.filter (fun c => c.articleId == articleId)).map (·.id)

/-- Topics under a set of chapter ids (`Topic.find({chapterId:{$in}})`). -/
def topicsUnder (db : ContentDb) (chapterIds : List String) : List Topic :=
  db.topics.filter (fun t => chapterIds.contains t.chapterId)

/-- Contents under a set of topic ids (`Content.find({topicId:{$in}})`). -/
def contentsUnder (db : ContentDb) (topicIds : List String) : List Content :=
  db.contents.filter (fun c => topicIds.contains c.topicId)

/-- The `$or` filter of the article cascade: a PDF attached to the
article itself or to any resolved chapter/topic/content. -/
def pdfMatchesArticle (articleId : String) (chapterIds topicIds contentIds : List String)
    (p : Pdf) : Bool :=
  (p.parentType == .article && p.parentId == articleId) ||
  (p.parentType == .chapter && chapterIds.contains p.parentId) ||
  (p.parentType == .topic && topicIds.contains p.parentId) ||
  (p.parentType == .content && contentIds.contains p.parentId)

/-- `DELETE /content/articles/:id` (contentRoutes.js lines 145–184):
resolve chapters, topics, contents and attached PDFs; unlink every PDF
blob (best effort); then delete PDF records, contents, topics, chapters
and finally the article. -/
def deleteArticle (db : ContentDb) (files : List String) (unlinkOk : String → Bool)
    (articleId : String) : DelOut ContentDb :=
  let chapterIds := articleChapterIds db articleId
  let topics := topicsUnder db chapterIds
  let topicIds := topics.map (·.id)
  let contents := contentsUnder db topicIds
  let contentIds := contents.map (·.id)
  let pdfs := db.pdfs.filter (pdfMatchesArticle articleId chapterIds topicIds contentIds)
  let pdfIds := pdfs.map (·.id)
  let files1 := unlinkPdfs unlinkOk files pdfs
  let db1 : ContentDb :=
    { articles := db.articles.filter (fun a => !(a.id == articleId))
      chapters := db.chapters.filter (fun c => !(c.articleId == articleId))
      topics := db.topics.filter (fun t => !(chapterIds.contains t.chapterId))
      contents := db.contents.filter (fun c => !(topicIds.contains c.topicId))
      pdfs := db.pdfs.filter (fun p => !(pdfIds.contains p.id)) }
  let trace :=
    pdfs.map (fun p => FsEv.unlink (pdfPath p.fileName)) ++
    pdfs.map (fun p => FsEv.delRec "Pdf" p.id) ++
    contents.map (fun c => FsEv.delRec "Content" c.id) ++
    topics.map (fun t => FsEv.delRec "Topic" t.id) ++
    (db.chapters.filter (fun c => c.articleId == articleId)).map
      (fun c => FsEv.delRec "Chapter" c.id) ++
    (if db.articles.any (fun a => a.id == articleId) then [FsEv.delRec "Article" articleId] else [])
  ⟨db1, files1, trace, okResp⟩

/-- `DELETE /content/contents/:id` (contentRoutes.js lines 335–348):
unlink and delete the content's PDF attachments, then the content. -/
def deleteContent (db : ContentDb) (files : List String) (unlinkOk : String → Bool)
    (contentId : String) : DelOut ContentDb :=
  let pdfs := db.pdfs.filter (fun p => p.parentType == .content && p.parentId == contentId)
  let files1 := unlinkPdfs unlinkOk files pdfs
  let db1 : ContentDb :=
    { db with
      pdfs := db.pdfs.filter (fun p => !(p.parentType == .content && p.parentId == contentId))
      contents := db.contents.filter (fun c => !(c.id == contentId)) }
  let trace :=
    pdfs.map (fun p => FsEv.unlink (pdfPath p.fileName)) ++
    pdfs.map (fun p => FsEv.delRec "Pdf" p.id) ++
    (if db.contents.any (fun c => c.id == contentId) then [FsEv.delRec "Content" contentId] else [])
  ⟨db1, files1, trace, okResp⟩

/-- The `$or` filter of the chapter cascade. -/
def pdfMatchesChapter (chapterId : String) (topicIds contentIds : List String) (p : Pdf) : Bool :=
  (p.parentType == .chapter && p.parentId == chapterId) ||
  (p.parentType == .topic && topicIds.contains p.parentId) ||
  (p.parentType == .content && contentIds.contains p.parentId)

/-- `DELETE /content/chapters/:id` (contentRoutes.js lines 217–246). -/
def deleteChapter (db : ContentDb) (files : List String) (unlinkOk : String → Bool)
    (chapterId : String) : DelOut ContentDb :=
  let topics := db.topics.filter (fun t => t.chapterId == chapterId)
  let topicIds := topics.map (·.id)
  let contents := contentsUnder db topicIds
  let contentIds := contents.map (·.id)
  let pdfs := db.pdfs.filter (pdfMatchesChapter chapterId topicIds contentIds)
  let pdfIds := pdfs.map (·.id)
  let files1 := unlinkPdfs unlinkOk files pdfs
  let db1 : ContentDb :=
    { db with
      chapters := db.chapters.filter (fun c => !(c.id == chapterId))
      topics := db.topics.filter (fun t => !(t.chapterId == chapterId))
      contents := db.contents.filter (fun c => !(topicIds.contains c.topicId))
      pdfs := db.pdfs.filter (fun p => !(pdfIds.contains p.id)) }
  let trace :=
    pdfs.map (fun p => FsEv.unlink (pdfPath p.fileName)) ++
    pdfs.map (fun p => FsEv.delRec "Pdf" p.id) ++
    contents.map (fun c => FsEv.delRec "Content" c.id) ++
    topics.map (fun t => FsEv.delRec "Topic" t.id) ++
    (if db.chapters.any (fun c => c.id == chapterId) then [FsEv.delRec "Chapter" chapterId] else [])
  ⟨db1, files1, trace, okResp⟩

/-- The `$or` filter of the topic cascade. -/
def pdfMatchesTopic (topicId : String) (contentIds : List String) (p : Pdf) : Bool :=
  (p.parentType == .topic && p.parentId == topicId) ||
  (p.parentType == .content && contentIds.contains p.parentId)

/-- `DELETE /content/topics/:id` (contentRoutes.js lines 279–302). -/
def deleteTopic (db : ContentDb) (files : List String) (unlinkOk : String → Bool)
    (topicId : String) : DelOut ContentDb :=
  let contents := db.contents.filter (fun c => c.topicId == topicId)
  let contentIds := contents.map (·.id)
  let pdfs := db.pdfs.filter (pdfMatchesTopic topicId contentIds)
  let pdfIds := pdfs.map (·.id)
  let files1 := unlinkPdfs unlinkOk files pdfs
  let db1 : ContentDb :=
    { db with
      topics := db.topics.filter (fun t => !(t.id == topicId))
      contents := db.contents.filter (fun c => !(c.topicId == topicId))
      pdfs := db.pdfs.filter (fun p => !(pdfIds.contains p.id)) }
  let trace :=
    pdfs.map (fun p => FsEv.unlink (pdfPath p.fileName)) ++
    pdfs.map (fun p => FsEv.delRec "Pdf" p.id) ++
    contents.map (fun c => FsEv.delRec "Content" c.id) ++
    (if db.topics.any (fun t => t.id == topicId) then [FsEv.delRec "Topic" topicId] else [])
  ⟨db1, files1, trace, okResp⟩

/-- Gallery model (galleryRoutes.js). -/
structure GalleryFolder where
  id : String
  title : String
deriving Repr, DecidableEq

structure GalleryImage where
  id : String
  folderId : String
  fileName : String
deriving Repr, DecidableEq

structure GalleryDb where
  folders : List GalleryFolder
  images : List GalleryImage
deriving Repr, DecidableEq

/-- The on-disk directory of a gallery folder
(`path.join(__dirname, "uploads", "gallery", String(folderId))`). -/
def galleryDir (folderId : String) : String :=
  "uploads/gallery/" ++ folderId

/-- Disk path of a gallery image blob. -/
def galleryImagePath (folderId fileName : String) : String :=
  galleryDir folderId ++ "/" ++ fileName

/-- Whether `pre` is a string prefix of `s`. -/
def strHasPre (pre s : String) : Bool :=
  pre.data.isPrefixOf s.data

/-- Whether a path lies inside a directory. -/
def inDir (dir path : String) : Bool :=
  strHasPre (dir ++ "/") path

/-- `DELETE /folders/:folderId` (galleryRoutes.js lines 192–210):
NotFound if the folder is absent; otherwise delete all image records,
the folder record, and then remove the whole folder directory with one
recursive `fs.rmSync`. -/
def deleteGalleryFolder (db : GalleryDb) (files : List String)
    (folderId : String) : DelOut GalleryDb :=
  match db.folders.find? (fun f => f.id == folderId) with
  | none => ⟨db, files, [], errResp 404 "Folder not found"⟩
  | some _ =>
    let imgs := db.images.filter (fun i => i.folderId == folderId)
    let db1 : GalleryDb :=
      { folders := db.folders.filter (fun f => !(f.id == folderId))
        images := db.images.filter (fun i => !(i.folderId == folderId)) }
    let dir := galleryDir folderId
    let dirExists := files.any (inDir dir)
    let files1 := if dirExists then files.filter (fun p => !(inDir dir p)) else files
    let trace :=
      imgs.map (fun i => FsEv.delRec "GalleryImage" i.id) ++
      [FsEv.delRec "GalleryFolder" folderId] ++
      (if dirExists then [FsEv.rmDirRec dir] else [])
    ⟨db1, files1, trace, okResp⟩

/-- `DELETE /images/:imageId` (galleryRoutes.js lines 270–288):
NotFound if the image is absent; otherwise delete the image record
first, then unlink the blob if it exists on disk. -/
def deleteGalleryImage (db : GalleryDb) (files : List String)
    (imageId : String) : DelOut GalleryDb :=
  match db.images.find? (fun i => i.id == imageId) with
  | none => ⟨db, files, [], errResp 404 "Image not found"⟩
  | some img =>
    let db1 : GalleryDb := { db with images := db.images.filter (fun i => !(i.id == img.id)) }
    let fp := galleryImagePath img.folderId img.fileName
    if files.contains fp then
      ⟨db1, files.erase fp, [FsEv.delRec "GalleryImage" img.id, FsEv.unlink fp], okResp⟩
    else
      ⟨db1, files, [FsEv.delRec "GalleryImage" img.id], okResp⟩

/-- Event classifier: blob-store operations (file unlink or recursive
directory removal). -/
def blobEv : FsEv → Bool
  | .unlink _ => true
  | .rmDirRec _ => true
  | .delRec _ _ => false

/-- Every blob-store operation in the trace happens before every
database record deletion ("blobs are deleted before the records"). -/
def blobsBeforeRecords : List FsEv → Bool
  | [] => true
  | e :: rest =>
    if blobEv e then blobsBeforeRecords rest
    else rest.all (fun x => !(blobEv x))

/-- Every database record deletion in the trace happens before every
blob-store operation. -/
def recordsBeforeBlobs : List FsEv → Bool
  | [] => true
  | e :: rest =>
    if blobEv e then rest.all blobEv
    else recordsBeforeBlobs rest

/-! ## OTP authentication state machine (authentication.js) -/

/-- The SHA-256 digest `sha256(identifier + ":" + otp + ":" + secret)`
from `hashOtp`, modelled as the data it commits to (the server secret is
a fixed constant and contributes nothing to equality). Structure
equality is the idealized collision-free digest comparison. -/
structure OtpDigest where
  identifier : String
  otp : String
deriving Repr, DecidableEq

/-- `hashOtp` from authentication.js. -/
def hashOtp (identifier otp : String) : OtpDigest :=
  ⟨identifier, otp⟩

/-- A bcrypt hash, modelled as the password it was derived from
(idealized collision-free salted hash). -/
structure BcryptHash where
  plainOf : String
deriving Repr, DecidableEq

/-- `bcrypt.compare`. -/
def bcryptCompare (password : String) (h : BcryptHash) : Bool :=
  password == h.plainOf

/-- User record (models/User.js). `password` is the legacy plaintext-era
field consulted by `getStoredPasswordHash`'s fallback. -/
structure User where
  uid : String
  firstName : String
  lastName : String
  email : Option String
  phone : Option String
  passwordHash : Option BcryptHash
  password : Option BcryptHash
  role : String
  isEmailVerified : Bool
  isPhoneVerified : Bool
  lastLoginAt : Option Nat
deriving Repr, DecidableEq

/-- `getStoredPasswordHash`: `user.passwordHash || user.password`. -/
def getStoredPasswordHash (u : User) : Option BcryptHash :=
  u.passwordHash <|> u.password

/-- OtpSession record (models/OtpSession.js). `sid` is the
server-generated `_id`, `createdAt` the timestamps plugin's field. -/
structure OtpSession where
  sid : Nat
  channel : String
  identifier : String
  userId : String
  otpHash : OtpDigest
  expiresAt : Nat
  attempts : Nat
  maxAttempts : Nat
  used : Bool
  createdAt : Nat
deriving Repr, DecidableEq

/-- The authentication slice of the entity store. `nextSid` feeds the
server-generated session ids. -/
structure AuthDb where
  users : List User
  sessions : List OtpSession
  nextSid : Nat
deriving Repr, DecidableEq

/-- The filter `{userId, channel, identifier, used:false}` shared by the
`updateMany` invalidation and the verify-time `findOne`. -/
def sessionMatches (userId channel identifier : String) (s : OtpSession) : Bool :=
  s.userId == userId && s.channel == channel && s.identifier == identifier && s.used == false

/-- The unused sessions of one (userId, channel, identifier) triple. -/
def tripleSessions (db : AuthDb) (userId channel identifier : String) : List OtpSession :=
  db.sessions.filter (sessionMatches userId channel identifier)

/-- `OtpSession.findOne({...used:false}).sort({createdAt:-1})`: the
most recently created unused session of the triple. -/
def findLatestSession (db : AuthDb) (userId channel identifier : String) : Option OtpSession :=
  (tripleSessions db userId channel identifier).foldl
    (fun acc s =>
      match acc with
      | none => some s
      | some b => if b.createdAt ≤ s.createdAt then some s else some b)
    none

/-- `OtpSession.updateMany({userId, channel, identifier, used:false},
{$set:{used:true}})`. -/
def invalidateSessions (db : AuthDb) (userId channel identifier : String) : AuthDb :=
  { db with
    sessions := db.sessions.map (fun s =>
      if sessionMatches userId channel identifier s then { s with used := true } else s) }

/-- `session.used = true; session.save()`. -/
def markSessionUsed (db : AuthDb) (sid : Nat) : AuthDb :=
  { db with
    sessions := db.sessions.map (fun s => if s.sid == sid then { s with used := true } else s) }

/-- `session.attempts += 1; session.save()`. -/
def bumpAttempts (db : AuthDb) (sid : Nat) : AuthDb :=
  { db with
    sessions := db.sessions.map (fun s =>
      if s.sid == sid then { s with attempts := s.attempts + 1 } else s) }

/-- `user.save()` after mutating a fetched user document. -/
def updateUser (db : AuthDb) (u : User) : AuthDb :=
  { db with users := db.users.map (fun x => if x.uid == u.uid then u else x) }

/-- `User.findOne(channel === "email" ? {email: identifier} : {phone:
identifier})`. -/
def findUser (db : AuthDb) (channel identifier : String) : Option User :=
  db.users.find? (fun u =>
    if channel == "email" then u.email == some identifier else u.phone == some identifier)

/-- The per-channel normalization shared by request-otp and verify-otp. -/
def normIdent (channel identifierRaw : String) : String :=
  if channel == "email" then normalizeEmail identifierRaw else normalizePhone identifierRaw

/-- `channel === "email" ? !!user.isEmailVerified : !!user.isPhoneVerified`. -/
def channelVerified (u : User) (channel : String) : Bool :=
  if channel == "email" then u.isEmailVerified else u.isPhoneVerified

/-- The token issued for a user on successful login/verify. -/
def mkUserToken (u : User) : Token :=
  ⟨u.uid, u.role, u.email, u.phone⟩

/-- A success response that carries a token. -/
def tokenResp (t : Token) (otpReq : Option Bool) : ApiResult :=
  ⟨200, none, otpReq, some t⟩

/-- The new OtpSession created by request-otp. -/
def newOtpSession (db : AuthDb) (now : Nat) (channel identifier userId otp : String) :
    OtpSession :=
  { sid := db.nextSid
    channel := channel
    identifier := identifier
    userId := userId
    otpHash := hashOtp identifier otp
    expiresAt := now + 5 * 60 * 1000
    attempts := 0
    maxAttempts := 5
    used := false
    createdAt := now }

/-- Decoded bearer-token claims as seen by the middleware (`req.auth`). -/
structure AuthClaims where
  role : String
  email : Option String
deriving Repr, DecidableEq

/-- Outcome of the `requireAdmin` middleware. -/
inductive AdminCheck where
  /-- `next()` is called -/
  | pass
  /-- 401 "Unauthorized" (no decoded claims attached) -/
  | noAuth
  /-- 403 "Admin only" -/
  | notAdminRole
  /-- 403 "Invalid admin identity" -/
  | wrongEmail
deriving Repr, DecidableEq

/-- `requireAdmin` (authentication.js lines 82–91). The decoded email is
defaulted to `""` and lowercased before comparison with the reserved
admin email. -/
def requireAdmin (auth : Option AuthClaims) : AdminCheck :=
  match auth with
  | none => .noAuth
  | some a =>
    if a.role != "admin" then .notAdminRole
    else if jsLower (a.email.getD "") != STATIC_ADMIN_EMAIL_FINAL then .wrongEmail
    else .pass

/-- `POST /signup` (authentication.js lines 182–227). `newUid` stands
for the server-generated `_id`; bcrypt hashing of the password is the
idealized `BcryptHash.mk`. -/
def signup (db : AuthDb) (firstNameRaw lastNameRaw emailRaw phoneRaw password newUid : String) :
    AuthDb × ApiResult :=
  let firstName := jsTrim firstNameRaw
  let lastName := jsTrim lastNameRaw
  let email := normalizeEmail emailRaw
  let phoneT := normalizePhone phoneRaw
  let phone : Option String := if phoneT == "" then none else some phoneT
  if firstName == "" then (db, errResp 400 "First name is required")
  else if lastName == "" then (db, errResp 400 "Last name is required")
  else if email == "" then (db, errResp 400 "Email is required")
  else if !(isEmail email) then (db, errResp 400 "Invalid email")
  else if (match phone with | some p => !(isE164 p) | none => false) then
    (db, errResp 400 "Phone must be E.164 like +919876543210")
  else if !(passwordOk password) then
    (db, errResp 400 "Password must be at least 8 characters")
  else if email == STATIC_ADMIN_EMAIL_FINAL then
    (db, errResp 403 "This email is reserved for admin.")
  else if db.users.any (fun u =>
      u.email == some email ||
      (match phone with | some p => u.phone == some p | none => false)) then
    (db, errResp 409 "User already exists")
  else
    let user : User :=
      { uid := newUid
        firstName := firstName
        lastName := lastName
        email := some email
        phone := phone
        passwordHash := some ⟨password⟩
        password := none
        role := "user"
        isEmailVerified := false
        isPhoneVerified := false
        lastLoginAt := none }
    ({ db with users := db.users ++ [user] }, okResp)

/-- `POST /login/request-otp` from the `User.findOne` lookup onward
(authentication.js lines 313–341), on the already-normalized
identifier. `otp` stands for the random `generateOtp()` output and
`deliveryOk` for whether the email/SMS delivery collaborator succeeds
(a throwing sender reaches the catch block, which responds 500). -/
def requestOtpAuthed (db : AuthDb) (now : Nat) (channel identifier password otp : String)
    (deliveryOk : Bool) : AuthDb × ApiResult :=
  match findUser db channel identifier with
  | none => (db, errResp 404 "User not found")
  | some user =>
    match getStoredPasswordHash user with
    | none => (db, errResp 500 "Password hash missing in DB.")
    | some stored =>
      if !(bcryptCompare password stored) then (db, errResp 401 "Invalid password")
      else if channelVerified user channel then
        let user1 := { user with lastLoginAt := some now }
        (updateUser db user1, tokenResp (mkUserToken user1) (some false))
      else
        let db1 := invalidateSessions db user.uid channel identifier
        let s := newOtpSession db1 now channel identifier user.uid otp
        let db2 : AuthDb := { db1 with sessions := db1.sessions ++ [s], nextSid := db1.nextSid + 1 }
        if deliveryOk then (db2, ⟨200, none, some true, none⟩)
        else (db2, errResp 500 "Failed to login")

/-- `POST /login/request-otp` (authentication.js lines 295–346). -/
def requestOtp (db : AuthDb) (now : Nat) (channel identifierRaw password otp : String)
    (deliveryOk : Bool) : AuthDb × ApiResult :=
  if !(channel == "email" || channel == "sms") then
    (db, errResp 400 "channel must be \"email\" or \"sms\"")
  else if jsTrim identifierRaw == "" then (db, errResp 400 "identifier is required")
  else if !(passwordOk password) then
    (db, errResp 400 "Password must be at least 8 characters")
  else
    let identifier := normIdent channel identifierRaw
    if channel == "email" && !(isEmail identifier) then (db, errResp 400 "Invalid email")
    else if channel == "sms" && !(isE164 identifier) then
      (db, errResp 400 "Phone must be E.164 like +919876543210")
    else if identifier == STATIC_ADMIN_EMAIL_FINAL then
      (db, errResp 403 "Use /api/auth/admin/login for admin.")
    else requestOtpAuthed db now channel identifier password otp deliveryOk

/-- The user mutation of a successful verify: set the channel's
verification flag and `lastLoginAt`. -/
def verifySuccessUser (u : User) (channel : String) (now : Nat) : User :=
  let u1 := if channel == "email" then { u with isEmailVerified := true } else u
  let u2 := if channel == "sms" then { u1 with isPhoneVerified := true } else u1
  { u2 with lastLoginAt := some now }

/-- `POST /login/verify-otp` from the `User.findOne` lookup onward
(authentication.js lines 364–405), on the already-normalized identifier
and trimmed otp. -/
def verifyOtpAuthed (db : AuthDb) (now : Nat) (channel identifier password otp : String) :
    AuthDb × ApiResult :=
  match findUser db channel identifier with
  | none => (db, errResp 404 "User not found")
  | some user =>
    match getStoredPasswordHash user with
    | none => (db, errResp 500 "Password hash missing in DB.")
    | some stored =>
      if !(bcryptCompare password stored) then (db, errResp 401 "Invalid password")
      else
        match findLatestSession db user.uid channel identifier with
        | none => (db, errResp 400 "No OTP found. Request again.")
        | some session =>
          if session.expiresAt < now then
            (markSessionUsed db session.sid, errResp 400 "OTP expired. Request again.")
          else if session.maxAttempts ≤ session.attempts then
            (markSessionUsed db session.sid, errResp 429 "Too many attempts. Request new OTP.")
          else if !(hashOtp identifier otp == session.otpHash) then
            (bumpAttempts db session.sid, errResp 401 "Invalid OTP")
          else
            let db1 := markSessionUsed db session.sid
            let user1 := verifySuccessUser user channel now
            let db2 := updateUser db1 user1
            (db2, tokenResp (mkUserToken user1) none)

/-- `POST /login/verify-otp` (authentication.js lines 349–410). -/
def verifyOtp (db : AuthDb) (now : Nat) (channel identifierRaw password otpRaw : String) :
    AuthDb × ApiResult :=
  let otp := jsTrim otpRaw
  if !(channel == "email" || channel == "sms") then
    (db, errResp 400 "channel must be \"email\" or \"sms\"")
  else if jsTrim identifierRaw == "" then (db, errResp 400 "identifier is required")
  else if otp == "" then (db, errResp 400 "otp is required")
  else if !(passwordOk password) then
    (db, errResp 400 "Password must be at least 8 characters")
  else
    let identifier := normIdent channel identifierRaw
    if identifier == STATIC_ADMIN_EMAIL_FINAL then
      (db, errResp 403 "Use /api/auth/admin/login for admin.")
    else verifyOtpAuthed db now channel identifier password otp

/-- The store mutation of request-otp on the non-short-circuit path:
invalidate the triple's unused sessions, then create the new session. -/
def requestOtpEffect (db : AuthDb) (now : Nat) (channel identifier userId otp : String) :
    AuthDb :=
  let db1 := invalidateSessions db userId channel identifier
  { db1 with
    sessions := db1.sessions ++ [newOtpSession db1 now channel identifier userId otp]
    nextSid := db1.nextSid + 1 }

/-! ### Concrete fixtures used by the witness theorems -/

/-- An ordinary signed-up user. -/
def uEx : User :=
  { uid := "u1"
    firstName := "Rupesh"
    lastName := "Nitin"
    email := some "a@b.c"
    phone := some "+912345678901"
    passwordHash := some ⟨"password123"⟩
    password := none
    role := "user"
    isEmailVerified := false
    isPhoneVerified := false
    lastLoginAt := none }

/-- Auth store holding just `uEx`. -/
def adbEx : AuthDb := ⟨[uEx], [], 0⟩

/-- A fresh, unused OtpSession of `uEx` for code "111111". -/
def sEx : OtpSession :=
  { sid := 7
    channel := "email"
    identifier := "a@b.c"
    userId := "u1"
    otpHash := hashOtp "a@b.c" "111111"
    expiresAt := 301000
    attempts := 0
    maxAttempts := 5
    used := false
    createdAt := 1000 }

/-- Auth store holding `uEx` and the live session `sEx`. -/
def adbSes : AuthDb := ⟨[uEx], [sEx], 8⟩

/-- Empty content store. -/
def cdbEx : ContentDb := ⟨[], [], [], [], []⟩

/-- A gallery folder with three images. -/
def gdb3 : GalleryDb :=
  ⟨[⟨"f1", "Festivals"⟩],
   [⟨"i1", "f1", "one.jpg"⟩, ⟨"i2", "f1", "two.jpg"⟩, ⟨"i3", "f1", "three.jpg"⟩]⟩

/-- The three image blobs of `gdb3` plus one unrelated file. -/
def files3 : List String :=
  ["uploads/gallery/f1/one.jpg", "uploads/gallery/f1/two.jpg",
   "uploads/gallery/f1/three.jpg", "uploads/pdfs/x.pdf"]

/-! ## Helper lemmas -/

/-- Records surviving a `deleteMany(filter)` never satisfy the filter. -/
theorem filter_after_delete {α : Type} (p : α → Bool) (l : List α) :
    (l.filter (fun x => !(p x))).filter p = [] := by
  rw [List.filter_filter]
  simp

/-- If no record satisfies the predicate, filtering by it is empty. -/
theorem filter_of_any_false {α : Type} (p : α → Bool) (l : List α)
    (h : l.any p = false) : l.filter p = [] := by
  rw [List.filter_eq_nil_iff]
  intro a ha
  have := List.any_eq_false.mp h a ha
  simpa using this

/-- Records surviving a delete-by-resolved-ids pass never satisfy the
resolution predicate (the cascade deletes by the ids it just resolved). -/
theorem filter_after_delete_ids {α β : Type} [BEq β] [LawfulBEq β]
    (q : α → Bool) (f : α → β) (l : List α) :
    (l.filter (fun x => !(((l.filter q).map f).contains (f x)))).filter q = [] := by
  rw [List.filter_eq_nil_iff]
  intro x hx
  rcases List.mem_filter.mp hx with ⟨hxl, hnc⟩
  intro hq
  apply absurd hnc
  simp only [Bool.not_eq_true', Bool.not_eq_false]
  have : f x ∈ (l.filter q).map f :=
    List.mem_map.mpr ⟨x, List.mem_filter.mpr ⟨hxl, hq⟩, rfl⟩
  exact List.elem_eq_true_of_mem this

/-- A trace without blob operations trivially puts blobs first. -/
theorem blobsBeforeRecords_of_no_blob (l : List FsEv)
    (h : l.all (fun e => !(blobEv e)) = true) : blobsBeforeRecords l = true := by
  cases l with
  | nil => rfl
  | cons e rest =>
    rw [List.all_cons, Bool.and_eq_true] at h
    have he : blobEv e = false := by simpa using h.1
    have hrest : rest.all (fun x => !(blobEv x)) = true := h.2
    simp [blobsBeforeRecords, he, hrest]

/-- Blob operations followed by record deletions are in blobs-first order. -/
theorem blobsBeforeRecords_append (a b : List FsEv)
    (ha : a.all blobEv = true) (hb : b.all (fun e => !(blobEv e)) = true) :
    blobsBeforeRecords (a ++ b) = true := by
  induction a with
  | nil => simpa using blobsBeforeRecords_of_no_blob b hb
  | cons e rest ih =>
    rw [List.all_cons, Bool.and_eq_true] at ha
    have he : blobEv e = true := ha.1
    have hrest : rest.all blobEv = true := ha.2
    simp [blobsBeforeRecords, he, ih hrest]

/-- A trace that is all blob operations trivially puts records first. -/
theorem recordsBeforeBlobs_of_all_blob (l : List FsEv)
    (h : l.all blobEv = true) : recordsBeforeBlobs l = true := by
  cases l with
  | nil => rfl
  | cons e rest =>
    rw [List.all_cons, Bool.and_eq_true] at h
    have he : blobEv e = true := h.1
    have hrest : rest.all blobEv = true := h.2
    simp [recordsBeforeBlobs, he, hrest]

/-- Record deletions followed by blob operations are in records-first order. -/
theorem recordsBeforeBlobs_append (a b : List FsEv)
    (ha : a.all (fun e => !(blobEv e)) = true) (hb : b.all blobEv = true) :
    recordsBeforeBlobs (a ++ b) = true := by
  induction a with
  | nil => simpa using recordsBeforeBlobs_of_all_blob b hb
  | cons e rest ih =>
    rw [List.all_cons, Bool.and_eq_true] at ha
    have he : blobEv e = false := by simpa using ha.1
    have hrest : rest.all (fun x => !(blobEv x)) = true := ha.2
    simp [recordsBeforeBlobs, he, ih hrest]

/-! ## C1 -/

/-- C1: `deleteArticle` resolves the chapters of the article, the topics
under those chapters, the contents under those topics and every
PdfAttachment attached to the article or a resolved descendant, deletes
blobs then PDF records, then contents, then topics, then chapters, then
the article, and afterwards zero Chapter/Topic/Content/Pdf records
reference the article or any resolved descendant id — for stores with
any numbers of chapters, topics and contents. -/
theorem deleteArticle_cascade_complete (db : ContentDb) (files : List String)
    (unlinkOk : String → Bool) (articleId : String) :
    (deleteArticle db files unlinkOk articleId).resp = okResp ∧
    ((deleteArticle db files unlinkOk articleId).db.chapters.filter
      (fun c => c.articleId == articleId)) = [] ∧
    ((deleteArticle db files unlinkOk articleId).db.topics.filter
      (fun t => (articleChapterIds db articleId).contains t.chapterId)) = [] ∧
    ((deleteArticle db files unlinkOk articleId).db.contents.filter
      (fun c => ((topicsUnder db (articleChapterIds db articleId)).map (·.id)).contains
        c.topicId)) = [] ∧
    ((deleteArticle db files unlinkOk articleId).db.pdfs.filter
      (pdfMatchesArticle articleId (articleChapterIds db articleId)
        ((topicsUnder db (articleChapterIds db articleId)).map (·.id))
        ((contentsUnder db ((topicsUnder db (articleChapterIds db articleId)).map (·.id))).map
          (·.id)))) = [] ∧
    ((deleteArticle db files unlinkOk articleId).db.articles.filter
      (fun a => a.id == articleId)) = [] ∧
    (deleteArticle db files unlinkOk articleId).trace =
      ((db.pdfs.filter (pdfMatchesArticle articleId (articleChapterIds db articleId)
          ((topicsUnder db (articleChapterIds db articleId)).map (·.id))
          ((contentsUnder db ((topicsUnder db (articleChapterIds db articleId)).map
            (·.id))).map (·.id)))).map (fun p => FsEv.unlink (pdfPath p.fileName)) ++
       (db.pdfs.filter (pdfMatchesArticle articleId (articleChapterIds db articleId)
          ((topicsUnder db (articleChapterIds db articleId)).map (·.id))
          ((contentsUnder db ((topicsUnder db (articleChapterIds db articleId)).map
            (·.id))).map (·.id)))).map (fun p => FsEv.delRec "Pdf" p.id) ++
       (contentsUnder db ((topicsUnder db (articleChapterIds db articleId)).map (·.id))).map
         (fun c => FsEv.delRec "Content" c.id) ++
       (topicsUnder db (articleChapterIds db articleId)).map
         (fun t => FsEv.delRec "Topic" t.id) ++
       (db.chapters.filter (fun c => c.articleId == articleId)).map
         (fun c => FsEv.delRec "Chapter" c.id) ++
       (if db.articles.any (fun a => a.id == articleId) then
          [FsEv.delRec "Article" articleId] else [])) := by
  refine ⟨rfl, ?_, ?_, ?_, ?_, ?_, rfl⟩
  · exact filter_after_delete _ _
  · exact filter_after_delete _ _
  · exact filter_after_delete _ _
  · exact filter_after_delete_ids _ _ _
  · exact filter_after_delete _ _

/-! ## C8 -/

/-- C8: deleting an Article, Chapter, Topic or Content whose id is not
present in the store returns success (the cascade routes have no
not-found branch), never an error. -/
theorem delete_missing_id_succeeds (db : ContentDb) (files : List String)
    (unlinkOk : String → Bool) (id : String)
    (hA : db.articles.all (fun a => !(a.id == id)) = true)
    (hC : db.chapters.all (fun c => !(c.id == id)) = true)
    (hT : db.topics.all (fun t => !(t.id == id)) = true)
    (hK : db.contents.all (fun c => !(c.id == id)) = true) :
    (deleteArticle db files unlinkOk id).resp = okResp ∧
    (deleteChapter db files unlinkOk id).resp = okResp ∧
    (deleteTopic db files unlinkOk id).resp = okResp ∧
    (deleteContent db files unlinkOk id).resp = okResp :=
  ⟨rfl, rfl, rfl, rfl⟩

/-- C8 witness: deleting the absent id "zzz" from the empty content
store succeeds on all four routes. -/
theorem delete_missing_id_succeeds_witness :
    (deleteArticle cdbEx [] (fun _ => true) "zzz").resp = okResp ∧
    (deleteChapter cdbEx [] (fun _ => true) "zzz").resp = okResp ∧
    (deleteTopic cdbEx [] (fun _ => true) "zzz").resp = okResp ∧
    (deleteContent cdbEx [] (fun _ => true) "zzz").resp = okResp :=
  delete_missing_id_succeeds cdbEx [] (fun _ => true) "zzz"
    (by decide) (by decide) (by decide) (by decide)

/-! ## C4 -/

/-- C4 counterexample: in the gallery-image deletion path the database
record is deleted first and the blob unlinked afterwards, so the claimed
"blob before record" order is violated on a store with one image whose
blob exists on disk. -/
theorem gallery_image_record_deleted_before_blob :
    (deleteGalleryImage ⟨[⟨"f1", "Folder"⟩], [⟨"i1", "f1", "pic.jpg"⟩]⟩
      ["uploads/gallery/f1/pic.jpg"] "i1").trace =
      [FsEv.delRec "GalleryImage" "i1", FsEv.unlink "uploads/gallery/f1/pic.jpg"] ∧
    blobsBeforeRecords
      ((deleteGalleryImage ⟨[⟨"f1", "Folder"⟩], [⟨"i1", "f1", "pic.jpg"⟩]⟩
        ["uploads/gallery/f1/pic.jpg"] "i1").trace) = false := by
  constructor
  · rfl
  · rfl

/-- `all` holds of a mapped list when it holds pointwise of the image. -/
theorem all_map_pointwise {α β : Type} (g : α → β) (p : β → Bool) (l : List α)
    (h : ∀ a, p (g a) = true) : (l.map g).all p = true := by
  induction l with
  | nil => rfl
  | cons a t ih => simp [h a, ih]

/-- C4 amended: in the PDF cascade path every blob unlink happens
before every record deletion and unlink failure never blocks the record
deletions (store outcome and success response are independent of unlink
success); in the gallery folder and gallery image paths the record
deletions happen before the blob removals. -/
theorem blob_record_ordering (cdb : ContentDb) (gdb gdb2 : GalleryDb)
    (f1 f2 f3 : List String) (unlinkOk : String → Bool) (aid fid iid : String) :
    blobsBeforeRecords (deleteArticle cdb f1 unlinkOk aid).trace = true ∧
    recordsBeforeBlobs (deleteGalleryFolder gdb f2 fid).trace = true ∧
    recordsBeforeBlobs (deleteGalleryImage gdb2 f3 iid).trace = true ∧
    (deleteArticle cdb f1 unlinkOk aid).db = (deleteArticle cdb f1 (fun _ => false) aid).db ∧
    (deleteArticle cdb f1 unlinkOk aid).resp = okResp := by
  refine ⟨?_, ?_, ?_, rfl, rfl⟩
  · show blobsBeforeRecords _ = true
    simp only [deleteArticle, List.append_assoc]
    apply blobsBeforeRecords_append
    · exact all_map_pointwise _ _ _ (fun a => rfl)
    · simp only [List.all_append, Bool.and_eq_true]
      refine ⟨?_, ?_, ?_, ?_, ?_⟩
      · exact all_map_pointwise _ _ _ (fun a => rfl)
      · exact all_map_pointwise _ _ _ (fun a => rfl)
      · exact all_map_pointwise _ _ _ (fun a => rfl)
      · exact all_map_pointwise _ _ _ (fun a => rfl)
      · split <;> rfl
  · unfold deleteGalleryFolder
    cases hf : gdb.folders.find? (fun f => f.id == fid) with
    | none => rfl
    | some f0 =>
      simp only
      apply recordsBeforeBlobs_append
      · rw [List.all_append, Bool.and_eq_true]
        exact ⟨all_map_pointwise _ _ _ (fun a => rfl), rfl⟩
      · split <;> rfl
  · unfold deleteGalleryImage
    cases hi : gdb2.images.find? (fun i => i.id == iid) with
    | none => rfl
    | some img =>
      simp only
      split
      · rfl
      · rfl

/-! ## C9 -/

/-- C9: `deleteGalleryFolder` fails with NotFound when the folder id is
absent; otherwise it succeeds, leaves no GalleryImage record with that
folderId and no folder record with that id, removes every on-disk file
under the folder's directory, and does so with at most one recursive
directory-removal operation and no per-file unlink. -/
theorem deleteGalleryFolder_spec (db : GalleryDb) (files : List String) (fid : String) :
    (db.folders.find? (fun f => f.id == fid) = none →
      deleteGalleryFolder db files fid = ⟨db, files, [], errResp 404 "Folder not found"⟩) ∧
    (∀ f0, db.folders.find? (fun f => f.id == fid) = some f0 →
      (deleteGalleryFolder db files fid).resp = okResp ∧
      ((deleteGalleryFolder db files fid).db.images.filter
        (fun i => i.folderId == fid)) = [] ∧
      ((deleteGalleryFolder db files fid).db.folders.filter
        (fun f => f.id == fid)) = [] ∧
      ((deleteGalleryFolder db files fid).files.filter (inDir (galleryDir fid))) = [] ∧
      ((deleteGalleryFolder db files fid).trace.filter blobEv).length ≤ 1 ∧
      ((deleteGalleryFolder db files fid).trace.all
        (fun e => match e with | .unlink _ => false | _ => true)) = true) := by
  constructor
  · intro h
    unfold deleteGalleryFolder
    rw [h]
  · intro f0 h
    unfold deleteGalleryFolder
    rw [h]
    simp only
    refine ⟨by trivial, filter_after_delete _ _, filter_after_delete _ _, ?_, ?_, ?_⟩
    · by_cases hd : files.any (inDir (galleryDir fid)) = true
      · simp only [hd, if_pos]
        exact filter_after_delete _ _
      · rw [Bool.not_eq_true] at hd
        simp only [hd, Bool.false_eq_true, if_neg, not_false_iff]
        exact filter_of_any_false _ _ hd
    · rw [List.filter_append, List.filter_append]
      have h1 : ((db.images.filter (fun i => i.folderId == fid)).map
          (fun i => FsEv.delRec "GalleryImage" i.id)).filter blobEv = [] := by
        rw [List.filter_eq_nil_iff]
        intro a ha
        rcases List.mem_map.mp ha with ⟨x, _, rfl⟩
        simp [blobEv]
      rw [h1]
      split <;> simp [blobEv]
    · rw [List.all_append, List.all_append, Bool.and_eq_true, Bool.and_eq_true]
      refine ⟨⟨all_map_pointwise _ _ _ (fun a => rfl), rfl⟩, ?_⟩
      split <;> rfl

/-- C9 witness: deleting the folder "f1" of `gdb3`, which has three
images with blobs on disk, removes all three image records, all three
blobs and the folder record, with a single recursive directory removal. -/
theorem deleteGalleryFolder_spec_witness :
    gdb3.folders.find? (fun f => f.id == "f1") = some ⟨"f1", "Festivals"⟩ ∧
    ((deleteGalleryFolder gdb3 files3 "f1").resp = okResp ∧
      ((deleteGalleryFolder gdb3 files3 "f1").db.images.filter
        (fun i => i.folderId == "f1")) = [] ∧
      ((deleteGalleryFolder gdb3 files3 "f1").db.folders.filter
        (fun f => f.id == "f1")) = [] ∧
      ((deleteGalleryFolder gdb3 files3 "f1").files.filter (inDir (galleryDir "f1"))) = [] ∧
      ((deleteGalleryFolder gdb3 files3 "f1").trace.filter blobEv).length ≤ 1 ∧
      ((deleteGalleryFolder gdb3 files3 "f1").trace.all
        (fun e => match e with | .unlink _ => false | _ => true)) = true) :=
  ⟨by decide,
   (deleteGalleryFolder_spec gdb3 files3 "f1").2 ⟨"f1", "Festivals"⟩ (by decide)⟩

/-! ## C5 -/

/-- C5 counterexample: a signup request with the reserved admin email
returns status 403 (Forbidden, "This email is reserved for admin."),
not 409 (Conflict), with no User record created. -/
theorem signup_admin_email_status_is_403 :
    signup ⟨[], [], 0⟩ "Rupesh" "Nitin" "sriandhravalmiki@gmail.com" "" "password123" "u1"
      = (⟨[], [], 0⟩, errResp 403 "This email is reserved for admin.") ∧
    (signup ⟨[], [], 0⟩ "Rupesh" "Nitin" "sriandhravalmiki@gmail.com" "" "password123"
      "u1").2.status ≠ 409 := by
  constructor
  · rfl
  · decide

/-- C5 amended: for every signup request that passes the field
validations and whose normalized, lowercased email equals the reserved
admin email, the operation fails with Forbidden (403) and no User
record is created (the store is unchanged). -/
theorem signup_admin_email_forbidden (db : AuthDb)
    (firstNameRaw lastNameRaw emailRaw phoneRaw password newUid : String)
    (hfn : (jsTrim firstNameRaw == "") = false)
    (hln : (jsTrim lastNameRaw == "") = false)
    (hem : normalizeEmail emailRaw = STATIC_ADMIN_EMAIL_FINAL)
    (hph : (match (if normalizePhone phoneRaw == "" then (none : Option String)
              else some (normalizePhone phoneRaw)) with
            | some p => !(isE164 p)
            | none => false) = false)
    (hpw : passwordOk password = true) :
    signup db firstNameRaw lastNameRaw emailRaw phoneRaw password newUid
      = (db, errResp 403 "This email is reserved for admin.") := by
  unfold signup
  rw [hem]
  simp only [hfn, hln, hph, hpw, Bool.false_eq_true, if_false, Bool.not_true,
    Bool.not_false, if_true]
  norm_num
  rw [if_neg (by decide), if_neg (by decide)]

/-- C5 amended witness: concrete instantiation on a store with one user. -/
theorem signup_admin_email_forbidden_witness :
    signup adbEx "Sita" "Rama" " SriAndhraValmiki@Gmail.Com " "+919876543210"
        "longpassword" "u9"
      = (adbEx, errResp 403 "This email is reserved for admin.") :=
  signup_admin_email_forbidden adbEx "Sita" "Rama" " SriAndhraValmiki@Gmail.Com "
    "+919876543210" "longpassword" "u9" (by decide) (by decide) (by decide) (by decide)
    (by decide)

/-! ## C6 -/

/-- C6 counterexample: `requireAdmin` passes for a decoded token whose
role is "admin" and whose email is an upper-case variant of the
reserved admin email, although that decoded email does not equal the
reserved admin email exactly — refuting the claimed "equals exactly"
biconditional. -/
theorem requireAdmin_passes_with_non_exact_email :
    requireAdmin (some ⟨"admin", some "SRIANDHRAVALMIKI@GMAIL.COM"⟩) = .pass ∧
    (some "SRIANDHRAVALMIKI@GMAIL.COM" : Option String) ≠ some STATIC_ADMIN_EMAIL_FINAL := by
  constructor
  · rfl
  · decide

/-- C6 amended: the admin-authorization check passes iff the decoded
role equals "admin" and the decoded email (defaulted to "" and
lowercased) equals the reserved admin email; a role-admin token whose
lowercased email differs is rejected with Forbidden ("Invalid admin
identity"). -/
theorem requireAdmin_pass_iff (a : AuthClaims) :
    (requireAdmin (some a) = .pass ↔
      (a.role = "admin" ∧ jsLower (a.email.getD "") = STATIC_ADMIN_EMAIL_FINAL)) ∧
    (a.role = "admin" → jsLower (a.email.getD "") ≠ STATIC_ADMIN_EMAIL_FINAL →
      requireAdmin (some a) = .wrongEmail) := by
  constructor
  · unfold requireAdmin
    constructor
    · intro h
      by_cases hr : a.role = "admin"
      · by_cases he : jsLower (a.email.getD "") = STATIC_ADMIN_EMAIL_FINAL
        · exact ⟨hr, he⟩
        · simp [hr, he] at h
      · simp [hr] at h
    · rintro ⟨hr, he⟩
      simp [hr, he]
  · intro hr he
    unfold requireAdmin
    simp [hr, he]

/-- C6 amended witness: a role-admin token with a different (already
lowercase) email is rejected with "Invalid admin identity", and the
exact admin claims pass. -/
theorem requireAdmin_pass_iff_witness :
    ("admin" = "admin" ∧ jsLower ((some "attacker@evil.com" : Option String).getD "")
        ≠ STATIC_ADMIN_EMAIL_FINAL) ∧
    requireAdmin (some ⟨"admin", some "attacker@evil.com"⟩) = .wrongEmail :=
  ⟨⟨rfl, by decide⟩,
   (requireAdmin_pass_iff ⟨"admin", some "attacker@evil.com"⟩).2 rfl (by decide)⟩

/-! ## OTP machinery lemmas -/

/-- A session marked used no longer matches the unused-triple filter. -/
theorem sessionMatches_mark_used (uid ch id : String) (s : OtpSession) :
    sessionMatches uid ch id { s with used := true } = false := by
  simp [sessionMatches]

/-- After `updateMany({...used:false},{$set:{used:true}})` no session of
the triple is still unused. -/
theorem filter_matches_after_invalidate (uid ch id : String) (l : List OtpSession) :
    (l.map (fun s => if sessionMatches uid ch id s then { s with used := true } else s)).filter
      (sessionMatches uid ch id) = [] := by
  rw [List.filter_eq_nil_iff]
  intro a ha
  rcases List.mem_map.mp ha with ⟨x, _, rfl⟩
  by_cases h : sessionMatches uid ch id x = true
  · rw [if_pos h]
    simp [sessionMatches_mark_used]
  · rw [if_neg (by simpa using h)]
    simpa using h

/-- The new session of request-otp matches its own triple filter. -/
theorem sessionMatches_new (db : AuthDb) (now : Nat) (ch id uid otp : String) :
    sessionMatches uid ch id (newOtpSession db now ch id uid otp) = true := by
  simp [sessionMatches, newOtpSession]

/-- After the request-otp store mutation the triple has exactly one
unused session: the newly created one. -/
theorem tripleSessions_effect (db : AuthDb) (now : Nat) (ch id uid otp : String) :
    tripleSessions (requestOtpEffect db now ch id uid otp) uid ch id
      = [newOtpSession db now ch id uid otp] := by
  unfold tripleSessions requestOtpEffect invalidateSessions
  simp only [List.filter_append, filter_matches_after_invalidate, List.nil_append]
  rw [List.filter_cons]
  rw [sessionMatches_new]
  rfl

/-- The request-otp store mutation does not touch the users collection. -/
theorem requestOtpEffect_users (db : AuthDb) (now : Nat) (ch id uid otp : String) :
    (requestOtpEffect db now ch id uid otp).users = db.users := rfl

/-- `findOne` of a singleton unused-triple list returns that session. -/
theorem findLatest_of_single (db : AuthDb) (uid ch id : String) (s : OtpSession)
    (h : tripleSessions db uid ch id = [s]) :
    findLatestSession db uid ch id = some s := by
  unfold findLatestSession
  rw [h]
  rfl

/-- `findOne` of an empty unused-triple list returns nothing. -/
theorem findLatest_of_none (db : AuthDb) (uid ch id : String)
    (h : tripleSessions db uid ch id = []) :
    findLatestSession db uid ch id = none := by
  unfold findLatestSession
  rw [h]
  rfl

/-- Marking the only unused session of a triple used leaves the triple
with no unused session. -/
theorem tripleSessions_markUsed_single (db : AuthDb) (uid ch id : String) (s : OtpSession)
    (h : tripleSessions db uid ch id = [s]) :
    tripleSessions (markSessionUsed db s.sid) uid ch id = [] := by
  have key : ∀ x ∈ db.sessions, sessionMatches uid ch id x = true → x = s := by
    intro x hx hm
    have hxf : x ∈ db.sessions.filter (sessionMatches uid ch id) :=
      List.mem_filter.mpr ⟨hx, hm⟩
    rw [show db.sessions.filter (sessionMatches uid ch id) = [s] from h] at hxf
    simpa using hxf
  unfold tripleSessions markSessionUsed
  rw [List.filter_eq_nil_iff]
  intro a ha
  rcases List.mem_map.mp ha with ⟨x, hx, rfl⟩
  by_cases hs : (x.sid == s.sid) = true
  · rw [if_pos hs]
    simp [sessionMatches_mark_used]
  · rw [if_neg (by simpa using hs)]
    intro hm
    have hxs := key x hx (by simpa using hm)
    subst hxs
    exact absurd (beq_self_eq_true x.sid) (by simpa using hs)

/-- `User.findOne` on a store whose users list is a known singleton. -/
theorem findUser_single (db : AuthDb) (u : User) (ch id : String)
    (husers : db.users = [u])
    (hu : (if ch == "email" then u.email == some id else u.phone == some id) = true) :
    findUser db ch id = some u := by
  unfold findUser
  rw [husers]
  simp only [List.find?_cons]
  rw [hu]

/-- Validation prefix of request-otp: with well-formed inputs the route
reduces to its post-lookup body. -/
theorem requestOtp_valid_eq (db : AuthDb) (now : Nat)
    (channel identifierRaw password otp : String) (deliveryOk : Bool)
    (hch : (channel == "email" || channel == "sms") = true)
    (hid : (jsTrim identifierRaw == "") = false)
    (hpw : passwordOk password = true)
    (hfe : (channel == "email" && !(isEmail (normIdent channel identifierRaw))) = false)
    (hfs : (channel == "sms" && !(isE164 (normIdent channel identifierRaw))) = false)
    (hadm : (normIdent channel identifierRaw == STATIC_ADMIN_EMAIL_FINAL) = false) :
    requestOtp db now channel identifierRaw password otp deliveryOk
      = requestOtpAuthed db now channel (normIdent channel identifierRaw) password otp
          deliveryOk := by
  unfold requestOtp
  simp only [hch, hid, hpw, hfe, hfs, hadm, Bool.not_true, Bool.not_false,
    Bool.false_eq_true, if_false, if_true]

/-- Post-lookup body of request-otp on the OTP-issuing path. -/
theorem requestOtpAuthed_creates (db : AuthDb) (now : Nat)
    (channel identifier password otp : String) (deliveryOk : Bool)
    (user : User) (stored : BcryptHash)
    (huser : findUser db channel identifier = some user)
    (hst : getStoredPasswordHash user = some stored)
    (hcmp : bcryptCompare password stored = true)
    (hver : channelVerified user channel = false) :
    requestOtpAuthed db now channel identifier password otp deliveryOk
      = (requestOtpEffect db now channel identifier user.uid otp,
         if deliveryOk then ⟨200, none, some true, none⟩
         else errResp 500 "Failed to login") := by
  unfold requestOtpAuthed
  rw [huser]
  simp only [hst, hcmp, hver, Bool.not_true, Bool.false_eq_true, if_false, if_true]
  cases deliveryOk <;> rfl

/-- Validation prefix of verify-otp: with well-formed inputs the route
reduces to its post-lookup body. -/
theorem verifyOtp_valid_eq (db : AuthDb) (now : Nat)
    (channel identifierRaw password otpRaw : String)
    (hch : (channel == "email" || channel == "sms") = true)
    (hid : (jsTrim identifierRaw == "") = false)
    (hotp : (jsTrim otpRaw == "") = false)
    (hpw : passwordOk password = true)
    (hadm : (normIdent channel identifierRaw == STATIC_ADMIN_EMAIL_FINAL) = false) :
    verifyOtp db now channel identifierRaw password otpRaw
      = verifyOtpAuthed db now channel (normIdent channel identifierRaw) password
          (jsTrim otpRaw) := by
  unfold verifyOtp
  simp only [hch, hid, hotp, hpw, hadm, Bool.not_true, Bool.not_false,
    Bool.false_eq_true, if_false, if_true]

/-- Post-lookup body of verify-otp on the wrong-code path. -/
theorem verifyOtpAuthed_wrong (db : AuthDb) (now : Nat)
    (channel identifier password otp : String) (user : User) (stored : BcryptHash)
    (s : OtpSession)
    (huser : findUser db channel identifier = some user)
    (hst : getStoredPasswordHash user = some stored)
    (hcmp : bcryptCompare password stored = true)
    (hfind : findLatestSession db user.uid channel identifier = some s)
    (hexp : ¬(s.expiresAt < now))
    (hatt : s.attempts < s.maxAttempts)
    (hwrong : (hashOtp identifier otp == s.otpHash) = false) :
    verifyOtpAuthed db now channel identifier password otp
      = (bumpAttempts db s.sid, errResp 401 "Invalid OTP") := by
  unfold verifyOtpAuthed
  rw [huser]
  simp only [hst, hcmp, Bool.not_true, Bool.false_eq_true, if_false]
  rw [hfind]
  simp only [if_neg hexp, if_neg (Nat.not_le.mpr hatt), hwrong, Bool.not_false, if_true]

/-- Post-lookup body of verify-otp on the attempts-exhausted path. -/
theorem verifyOtpAuthed_exhausted (db : AuthDb) (now : Nat)
    (channel identifier password otp : String) (user : User) (stored : BcryptHash)
    (s : OtpSession)
    (huser : findUser db channel identifier = some user)
    (hst : getStoredPasswordHash user = some stored)
    (hcmp : bcryptCompare password stored = true)
    (hfind : findLatestSession db user.uid channel identifier = some s)
    (hexp : ¬(s.expiresAt < now))
    (hatt : s.maxAttempts ≤ s.attempts) :
    verifyOtpAuthed db now channel identifier password otp
      = (markSessionUsed db s.sid, errResp 429 "Too many attempts. Request new OTP.") := by
  unfold verifyOtpAuthed
  rw [huser]
  simp only [hst, hcmp, Bool.not_true, Bool.false_eq_true, if_false]
  rw [hfind]
  simp only [if_neg hexp, if_pos hatt]

/-- Post-lookup body of verify-otp on the matching-code path. -/
theorem verifyOtpAuthed_success (db : AuthDb) (now : Nat)
    (channel identifier password otp : String) (user : User) (stored : BcryptHash)
    (s : OtpSession)
    (huser : findUser db channel identifier = some user)
    (hst : getStoredPasswordHash user = some stored)
    (hcmp : bcryptCompare password stored = true)
    (hfind : findLatestSession db user.uid channel identifier = some s)
    (hexp : ¬(s.expiresAt < now))
    (hatt : s.attempts < s.maxAttempts)
    (hok : (hashOtp identifier otp == s.otpHash) = true) :
    verifyOtpAuthed db now channel identifier password otp
      = (updateUser (markSessionUsed db s.sid) (verifySuccessUser user channel now),
         tokenResp (mkUserToken (verifySuccessUser user channel now)) none) := by
  unfold verifyOtpAuthed
  rw [huser]
  simp only [hst, hcmp, Bool.not_true, Bool.false_eq_true, if_false]
  rw [hfind]
  simp only [if_neg hexp, if_neg (Nat.not_le.mpr hatt), hok, Bool.not_true,
    Bool.false_eq_true, if_false]

/-- Post-lookup body of verify-otp when the triple has no unused session. -/
theorem verifyOtpAuthed_no_session (db : AuthDb) (now : Nat)
    (channel identifier password otp : String) (user : User) (stored : BcryptHash)
    (huser : findUser db channel identifier = some user)
    (hst : getStoredPasswordHash user = some stored)
    (hcmp : bcryptCompare password stored = true)
    (hfind : findLatestSession db user.uid channel identifier = none) :
    verifyOtpAuthed db now channel identifier password otp
      = (db, errResp 400 "No OTP found. Request again.") := by
  unfold verifyOtpAuthed
  rw [huser]
  simp only [hst, hcmp, Bool.not_true, Bool.false_eq_true, if_false]
  rw [hfind]

/-- Fields of the user untouched by a successful verify. -/
theorem verifySuccessUser_fields (u : User) (ch : String) (now : Nat) :
    (verifySuccessUser u ch now).uid = u.uid ∧
    (verifySuccessUser u ch now).email = u.email ∧
    (verifySuccessUser u ch now).phone = u.phone ∧
    getStoredPasswordHash (verifySuccessUser u ch now) = getStoredPasswordHash u := by
  by_cases h1 : (ch == "email") = true <;> by_cases h2 : (ch == "sms") = true <;>
    simp [verifySuccessUser, getStoredPasswordHash, h1, h2]

/-! ## C2 -/

/-- C2: a successful request-otp call performs the invalidating
`updateMany` before creating the new session (the store mutation is
exactly `requestOtpEffect`); after a second request-otp for the same
(userId, channel, identifier) triple the only unused session of the
triple is the second one, and verifying the first (stale, distinct) code
fails with "Invalid OTP" even within the stale code's original 5-minute
window. -/
theorem requestOtp_invalidates_previous_sessions (db : AuthDb)
    (now1 now2 now3 : Nat) (channel identifierRaw password otp1 otp2 : String)
    (user : User) (stored : BcryptHash)
    (hch : (channel == "email" || channel == "sms") = true)
    (hid : (jsTrim identifierRaw == "") = false)
    (hpw : passwordOk password = true)
    (hfe : (channel == "email" && !(isEmail (normIdent channel identifierRaw))) = false)
    (hfs : (channel == "sms" && !(isE164 (normIdent channel identifierRaw))) = false)
    (hadm : (normIdent channel identifierRaw == STATIC_ADMIN_EMAIL_FINAL) = false)
    (huser : findUser db channel (normIdent channel identifierRaw) = some user)
    (hst : getStoredPasswordHash user = some stored)
    (hcmp : bcryptCompare password stored = true)
    (hver : channelVerified user channel = false)
    (hot1t : jsTrim otp1 = otp1)
    (hot1ne : (otp1 == "") = false)
    (hne : otp1 ≠ otp2)
    (hnow : now1 ≤ now2)
    (hwin : now3 ≤ now1 + 5 * 60 * 1000) :
    (requestOtp db now1 channel identifierRaw password otp1 true).1
      = requestOtpEffect db now1 channel (normIdent channel identifierRaw) user.uid otp1 ∧
    ((requestOtp (requestOtpEffect db now1 channel (normIdent channel identifierRaw)
        user.uid otp1) now2 channel identifierRaw password otp2 true).1
      = requestOtpEffect (requestOtpEffect db now1 channel
          (normIdent channel identifierRaw) user.uid otp1) now2 channel
          (normIdent channel identifierRaw) user.uid otp2) ∧
    tripleSessions (requestOtpEffect (requestOtpEffect db now1 channel
        (normIdent channel identifierRaw) user.uid otp1) now2 channel
        (normIdent channel identifierRaw) user.uid otp2)
        user.uid channel (normIdent channel identifierRaw)
      = [newOtpSession (requestOtpEffect db now1 channel
          (normIdent channel identifierRaw) user.uid otp1) now2 channel
          (normIdent channel identifierRaw) user.uid otp2] ∧
    (verifyOtp (requestOtpEffect (requestOtpEffect db now1 channel
        (normIdent channel identifierRaw) user.uid otp1) now2 channel
        (normIdent channel identifierRaw) user.uid otp2)
        now3 channel identifierRaw password otp1).2
      = errResp 401 "Invalid OTP" := by
  have huser1 : findUser (requestOtpEffect db now1 channel
      (normIdent channel identifierRaw) user.uid otp1) channel
      (normIdent channel identifierRaw) = some user := huser
  have huser2 : findUser (requestOtpEffect (requestOtpEffect db now1 channel
      (normIdent channel identifierRaw) user.uid otp1) now2 channel
      (normIdent channel identifierRaw) user.uid otp2) channel
      (normIdent channel identifierRaw) = some user := huser
  have htri := tripleSessions_effect (requestOtpEffect db now1 channel
    (normIdent channel identifierRaw) user.uid otp1) now2 channel
    (normIdent channel identifierRaw) user.uid otp2
  refine ⟨?_, ?_, htri, ?_⟩
  · rw [requestOtp_valid_eq db now1 channel identifierRaw password otp1 true
      hch hid hpw hfe hfs hadm]
    rw [requestOtpAuthed_creates db now1 channel (normIdent channel identifierRaw)
      password otp1 true user stored huser hst hcmp hver]
  · rw [requestOtp_valid_eq _ now2 channel identifierRaw password otp2 true
      hch hid hpw hfe hfs hadm]
    rw [requestOtpAuthed_creates _ now2 channel (normIdent channel identifierRaw)
      password otp2 true user stored huser1 hst hcmp hver]
  · rw [verifyOtp_valid_eq _ now3 channel identifierRaw password otp1 hch hid
      (by rw [hot1t]; exact hot1ne) hpw hadm]
    rw [hot1t]
    rw [verifyOtpAuthed_wrong _ now3 channel (normIdent channel identifierRaw)
      password otp1 user stored _ huser2 hst hcmp
      (findLatest_of_single _ _ _ _ _ htri) ?hexp ?hatt ?hwrong]
    case hexp =>
      show ¬((newOtpSession _ now2 _ _ _ _).expiresAt < now3)
      unfold newOtpSession
      simp only
      omega
    case hatt =>
      unfold newOtpSession
      norm_num
    case hwrong =>
      unfold newOtpSession
      simp only
      rw [beq_eq_false_iff_ne]
      intro hcontr
      exact hne (congrArg OtpDigest.otp hcontr)

/-- C2 witness: concrete back-to-back OTP requests for `uEx`; verifying
the first code "111111" after the second request fails with
"Invalid OTP" within its original window. -/
theorem requestOtp_invalidates_previous_sessions_witness :
    (verifyOtp (requestOtpEffect (requestOtpEffect adbEx 1000 "email"
        (normIdent "email" "a@b.c") uEx.uid "111111") 2000 "email"
        (normIdent "email" "a@b.c") uEx.uid "222222")
        3000 "email" "a@b.c" "password123" "111111").2
      = errResp 401 "Invalid OTP" :=
  (requestOtp_invalidates_previous_sessions adbEx 1000 2000 3000 "email" "a@b.c"
    "password123" "111111" "222222" uEx ⟨"password123"⟩ (by decide) (by decide)
    (by decide) (by decide) (by decide) (by decide) (by decide) (by decide)
    (by decide) (by decide) (by decide) (by decide) (by decide) (by decide)
    (by decide)).2.2.2

/-! ## C3 -/

/-- The unused-triple filter of a single-session store. -/
theorem tripleSessions_single (u : User) (s : OtpSession) (n : Nat) (uid ch id : String)
    (hm : sessionMatches uid ch id s = true) :
    tripleSessions ⟨[u], [s], n⟩ uid ch id = [s] := by
  unfold tripleSessions
  simp [List.filter, hm]

/-- `attempts += 1` on a single-session store. -/
theorem bumpAttempts_single (u : User) (s : OtpSession) (n : Nat) :
    bumpAttempts ⟨[u], [s], n⟩ s.sid = ⟨[u], [{ s with attempts := s.attempts + 1 }], n⟩ := by
  unfold bumpAttempts
  simp

/-- `used = true` on a single-session store. -/
theorem markSessionUsed_single (u : User) (s : OtpSession) (n : Nat) :
    markSessionUsed ⟨[u], [s], n⟩ s.sid = ⟨[u], [{ s with used := true }], n⟩ := by
  unfold markSessionUsed
  simp

/-- One wrong-code verify call against a single-session store: 401 and
the attempts counter is incremented. -/
theorem verifyOtp_wrong_single (u : User) (stored : BcryptHash) (s : OtpSession)
    (n t : Nat) (channel identifier password w : String)
    (hch : (channel == "email" || channel == "sms") = true)
    (hu : (if channel == "email" then u.email == some identifier
           else u.phone == some identifier) = true)
    (hidne : (jsTrim identifier == "") = false)
    (hnorm : normIdent channel identifier = identifier)
    (hadm : (normIdent channel identifier == STATIC_ADMIN_EMAIL_FINAL) = false)
    (hpw : passwordOk password = true)
    (hst : getStoredPasswordHash u = some stored)
    (hcmp : bcryptCompare password stored = true)
    (hwt : jsTrim w = w)
    (hwne : (w == "") = false)
    (hmatch : sessionMatches u.uid channel identifier s = true)
    (hexp : ¬(s.expiresAt < t))
    (hatt : s.attempts < s.maxAttempts)
    (hwr : (hashOtp identifier w == s.otpHash) = false) :
    verifyOtp ⟨[u], [s], n⟩ t channel identifier password w
      = (⟨[u], [{ s with attempts := s.attempts + 1 }], n⟩, errResp 401 "Invalid OTP") := by
  rw [verifyOtp_valid_eq _ t channel identifier password w hch hidne
    (by rw [hwt]; exact hwne) hpw hadm]
  rw [hnorm, hwt]
  rw [verifyOtpAuthed_wrong _ t channel identifier password w u stored s
    (findUser_single _ u channel identifier rfl hu) hst hcmp
    (findLatest_of_single _ _ _ _ _ (tripleSessions_single u s n u.uid channel
      identifier hmatch)) hexp hatt hwr]
  rw [bumpAttempts_single]

/-- One verify call against a single-session store whose attempts are
exhausted: 429 and the session is marked used, for any submitted code. -/
theorem verifyOtp_exhausted_single (u : User) (stored : BcryptHash) (s : OtpSession)
    (n t : Nat) (channel identifier password c : String)
    (hch : (channel == "email" || channel == "sms") = true)
    (hu : (if channel == "email" then u.email == some identifier
           else u.phone == some identifier) = true)
    (hidne : (jsTrim identifier == "") = false)
    (hnorm : normIdent channel identifier = identifier)
    (hadm : (normIdent channel identifier == STATIC_ADMIN_EMAIL_FINAL) = false)
    (hpw : passwordOk password = true)
    (hst : getStoredPasswordHash u = some stored)
    (hcmp : bcryptCompare password stored = true)
    (hct : jsTrim c = c)
    (hcne : (c == "") = false)
    (hmatch : sessionMatches u.uid channel identifier s = true)
    (hexp : ¬(s.expiresAt < t))
    (hatt : s.maxAttempts ≤ s.attempts) :
    verifyOtp ⟨[u], [s], n⟩ t channel identifier password c
      = (⟨[u], [{ s with used := true }], n⟩,
         errResp 429 "Too many attempts. Request new OTP.") := by
  rw [verifyOtp_valid_eq _ t channel identifier password c hch hidne
    (by rw [hct]; exact hcne) hpw hadm]
  rw [hnorm, hct]
  rw [verifyOtpAuthed_exhausted _ t channel identifier password c u stored s
    (findUser_single _ u channel identifier rfl hu) hst hcmp
    (findLatest_of_single _ _ _ _ _ (tripleSessions_single u s n u.uid channel
      identifier hmatch)) hexp hatt]
  rw [markSessionUsed_single]


/-- C3: for a session with maxAttempts = 5 and attempts = 0, five
consecutive wrong-code verify calls (each inside the expiry window)
drive attempts to 5, and the sixth call - with ANY submitted code,
including the correct one - fails with the 429 attempts-exhausted
error, marking the session used; the exhaustion check precedes the code
hash comparison, so the invalid-OTP error can never be produced. -/
theorem verify_sixth_attempt_rate_limited (u : User) (stored : BcryptHash)
    (sid n exp created t1 t2 t3 t4 t5 t6 : Nat)
    (channel identifier password w1 w2 w3 w4 w5 c6 : String) (digest : OtpDigest)
    (hch : (channel == "email" || channel == "sms") = true)
    (hu : (if channel == "email" then u.email == some identifier
           else u.phone == some identifier) = true)
    (hidne : (jsTrim identifier == "") = false)
    (hnorm : normIdent channel identifier = identifier)
    (hadm : (normIdent channel identifier == STATIC_ADMIN_EMAIL_FINAL) = false)
    (hpw : passwordOk password = true)
    (hst : getStoredPasswordHash u = some stored)
    (hcmp : bcryptCompare password stored = true)
    (hw1t : jsTrim w1 = w1) (hw1ne : (w1 == "") = false)
    (hw1wr : (hashOtp identifier w1 == digest) = false)
    (hw2t : jsTrim w2 = w2) (hw2ne : (w2 == "") = false)
    (hw2wr : (hashOtp identifier w2 == digest) = false)
    (hw3t : jsTrim w3 = w3) (hw3ne : (w3 == "") = false)
    (hw3wr : (hashOtp identifier w3 == digest) = false)
    (hw4t : jsTrim w4 = w4) (hw4ne : (w4 == "") = false)
    (hw4wr : (hashOtp identifier w4 == digest) = false)
    (hw5t : jsTrim w5 = w5) (hw5ne : (w5 == "") = false)
    (hw5wr : (hashOtp identifier w5 == digest) = false)
    (hc6t : jsTrim c6 = c6) (hc6ne : (c6 == "") = false)
    (he1 : ¬(exp < t1)) (he2 : ¬(exp < t2)) (he3 : ¬(exp < t3))
    (he4 : ¬(exp < t4)) (he5 : ¬(exp < t5)) (he6 : ¬(exp < t6)) :
    let s0 : OtpSession := ⟨sid, channel, identifier, u.uid, digest, exp, 0, 5, false, created⟩
    let d1 := (verifyOtp ⟨[u], [s0], n⟩ t1 channel identifier password w1).1
    let d2 := (verifyOtp d1 t2 channel identifier password w2).1
    let d3 := (verifyOtp d2 t3 channel identifier password w3).1
    let d4 := (verifyOtp d3 t4 channel identifier password w4).1
    let d5 := (verifyOtp d4 t5 channel identifier password w5).1
    d5.sessions = [{ s0 with attempts := 5 }] ∧
    (verifyOtp d5 t6 channel identifier password c6).2
      = errResp 429 "Too many attempts. Request new OTP." ∧
    (verifyOtp d5 t6 channel identifier password c6).1.sessions
      = [{ s0 with attempts := 5, used := true }] := by
  have hm : ∀ (att : Nat) (us : Bool),
      sessionMatches u.uid channel identifier
        ⟨sid, channel, identifier, u.uid, digest, exp, att, 5, us, created⟩ = (us == false) := by
    intro att us
    simp [sessionMatches]
  have E1 : verifyOtp ⟨[u], [⟨sid, channel, identifier, u.uid, digest, exp, 0, 5, false, created⟩], n⟩ t1 channel identifier password w1
      = (⟨[u], [⟨sid, channel, identifier, u.uid, digest, exp, 1, 5, false, created⟩], n⟩, errResp 401 "Invalid OTP") :=
    verifyOtp_wrong_single u stored ⟨sid, channel, identifier, u.uid, digest, exp, 0, 5, false, created⟩ n t1
      channel identifier password w1 hch hu hidne hnorm hadm hpw hst hcmp
      hw1t hw1ne (by rw [hm]; rfl) he1 (by show (0:Nat) < 5; decide) hw1wr
  have E2 : verifyOtp ⟨[u], [⟨sid, channel, identifier, u.uid, digest, exp, 1, 5, false, created⟩], n⟩ t2 channel identifier password w2
      = (⟨[u], [⟨sid, channel, identifier, u.uid, digest, exp, 2, 5, false, created⟩], n⟩, errResp 401 "Invalid OTP") :=
    verifyOtp_wrong_single u stored ⟨sid, channel, identifier, u.uid, digest, exp, 1, 5, false, created⟩ n t2
      channel identifier password w2 hch hu hidne hnorm hadm hpw hst hcmp
      hw2t hw2ne (by rw [hm]; rfl) he2 (by show (1:Nat) < 5; decide) hw2wr
  have E3 : verifyOtp ⟨[u], [⟨sid, channel, identifier, u.uid, digest, exp, 2, 5, false, created⟩], n⟩ t3 channel identifier password w3
      = (⟨[u], [⟨sid, channel, identifier, u.uid, digest, exp, 3, 5, false, created⟩], n⟩, errResp 401 "Invalid OTP") :=
    verifyOtp_wrong_single u stored ⟨sid, channel, identifier, u.uid, digest, exp, 2, 5, false, created⟩ n t3
      channel identifier password w3 hch hu hidne hnorm hadm hpw hst hcmp
      hw3t hw3ne (by rw [hm]; rfl) he3 (by show (2:Nat) < 5; decide) hw3wr
  have E4 : verifyOtp ⟨[u], [⟨sid, channel, identifier, u.uid, digest, exp, 3, 5, false, created⟩], n⟩ t4 channel identifier password w4
      = (⟨[u], [⟨sid, channel, identifier, u.uid, digest, exp, 4, 5, false, created⟩], n⟩, errResp 401 "Invalid OTP") :=
    verifyOtp_wrong_single u stored ⟨sid, channel, identifier, u.uid, digest, exp, 3, 5, false, created⟩ n t4
      channel identifier password w4 hch hu hidne hnorm hadm hpw hst hcmp
      hw4t hw4ne (by rw [hm]; rfl) he4 (by show (3:Nat) < 5; decide) hw4wr
  have E5 : verifyOtp ⟨[u], [⟨sid, channel, identifier, u.uid, digest, exp, 4, 5, false, created⟩], n⟩ t5 channel identifier password w5
      = (⟨[u], [⟨sid, channel, identifier, u.uid, digest, exp, 5, 5, false, created⟩], n⟩, errResp 401 "Invalid OTP") :=
    verifyOtp_wrong_single u stored ⟨sid, channel, identifier, u.uid, digest, exp, 4, 5, false, created⟩ n t5
      channel identifier password w5 hch hu hidne hnorm hadm hpw hst hcmp
      hw5t hw5ne (by rw [hm]; rfl) he5 (by show (4:Nat) < 5; decide) hw5wr
  have E6 : verifyOtp ⟨[u], [⟨sid, channel, identifier, u.uid, digest, exp, 5, 5, false, created⟩], n⟩ t6 channel identifier password c6
      = (⟨[u], [⟨sid, channel, identifier, u.uid, digest, exp, 5, 5, true, created⟩], n⟩,
         errResp 429 "Too many attempts. Request new OTP.") :=
    verifyOtp_exhausted_single u stored ⟨sid, channel, identifier, u.uid, digest, exp, 5, 5, false, created⟩ n t6
      channel identifier password c6 hch hu hidne hnorm hadm hpw hst hcmp
      hc6t hc6ne (by rw [hm]; rfl) he6 (by show (5:Nat) ≤ 5; decide)
  dsimp only
  rw [E1, E2, E3, E4, E5]
  refine ⟨rfl, ?_, ?_⟩
  · rw [E6]
  · rw [E6]


/-- C3 witness: five wrong codes against `uEx`'s session for code
"111111", then the correct code "111111" on the sixth call, still
inside the 5-minute window: the response is the 429 rate-limited
error. -/
theorem verify_sixth_attempt_rate_limited_witness :
    (verifyOtp (verifyOtp (verifyOtp (verifyOtp (verifyOtp (verifyOtp (⟨[uEx], [⟨7, "email", "a@b.c", uEx.uid, hashOtp "a@b.c" "111111", 301000, 0, 5, false, 1000⟩], 8⟩ : AuthDb) 2000 "email" "a@b.c" "password123" "000001").1 3000 "email" "a@b.c" "password123" "000002").1 4000 "email" "a@b.c" "password123" "000003").1 5000 "email" "a@b.c" "password123" "000004").1 6000 "email" "a@b.c" "password123" "000005").1 7000 "email" "a@b.c" "password123" "111111").2
      = errResp 429 "Too many attempts. Request new OTP." :=
  (verify_sixth_attempt_rate_limited uEx ⟨"password123"⟩ 7 8 301000 1000
    2000 3000 4000 5000 6000 7000 "email" "a@b.c" "password123"
    "000001" "000002" "000003" "000004" "000005" "111111"
    (hashOtp "a@b.c" "111111")
    (by decide) (by decide) (by decide) (by decide) (by decide) (by decide)
    (by decide) (by decide) (by decide) (by decide) (by decide) (by decide)
    (by decide) (by decide) (by decide) (by decide) (by decide) (by decide)
    (by decide) (by decide) (by decide) (by decide) (by decide) (by decide)
    (by decide) (by decide) (by decide) (by decide) (by decide) (by decide)
    (by decide)).2.1


/-! ## C7 -/

/-- C7: a correct code, inside the expiry window and under the attempt
limit, against the single unused session of its triple (on a
single-user store) succeeds exactly once: the response carries a token,
the channel's verification flag is set on the user, no unused session
of the triple remains, and verifying the same code again afterwards
fails with "No OTP found. Request again.". -/
theorem verify_success_exactly_once (db : AuthDb) (u : User) (stored : BcryptHash)
    (s : OtpSession) (now now2 : Nat) (channel identifier password otp : String)
    (husers : db.users = [u])
    (hch : (channel == "email" || channel == "sms") = true)
    (hu : (if channel == "email" then u.email == some identifier
           else u.phone == some identifier) = true)
    (hidne : (jsTrim identifier == "") = false)
    (hnorm : normIdent channel identifier = identifier)
    (hadm : (normIdent channel identifier == STATIC_ADMIN_EMAIL_FINAL) = false)
    (hotpt : jsTrim otp = otp)
    (hotpne : (otp == "") = false)
    (hpw : passwordOk password = true)
    (hst : getStoredPasswordHash u = some stored)
    (hcmp : bcryptCompare password stored = true)
    (htri : tripleSessions db u.uid channel identifier = [s])
    (hexp : ¬(s.expiresAt < now))
    (hatt : s.attempts < s.maxAttempts)
    (hok : (hashOtp identifier otp == s.otpHash) = true) :
    (verifyOtp db now channel identifier password otp).2
      = tokenResp (mkUserToken (verifySuccessUser u channel now)) none ∧
    (verifyOtp db now channel identifier password otp).1.users
      = [verifySuccessUser u channel now] ∧
    channelVerified (verifySuccessUser u channel now) channel = true ∧
    tripleSessions (verifyOtp db now channel identifier password otp).1
      u.uid channel identifier = [] ∧
    (verifyOtp (verifyOtp db now channel identifier password otp).1 now2
      channel identifier password otp).2
      = errResp 400 "No OTP found. Request again." := by
  have hfields := verifySuccessUser_fields u channel now
  have hv : verifyOtp db now channel identifier password otp
      = (updateUser (markSessionUsed db s.sid) (verifySuccessUser u channel now),
         tokenResp (mkUserToken (verifySuccessUser u channel now)) none) := by
    rw [verifyOtp_valid_eq db now channel identifier password otp hch hidne
      (by rw [hotpt]; exact hotpne) hpw hadm]
    rw [hnorm, hotpt]
    exact verifyOtpAuthed_success db now channel identifier password otp u stored s
      (findUser_single db u channel identifier husers hu) hst hcmp
      (findLatest_of_single _ _ _ _ _ htri) hexp hatt hok
  have husers1 : (updateUser (markSessionUsed db s.sid)
      (verifySuccessUser u channel now)).users = [verifySuccessUser u channel now] := by
    show db.users.map (fun x => if x.uid == (verifySuccessUser u channel now).uid
      then verifySuccessUser u channel now else x) = [verifySuccessUser u channel now]
    rw [husers]
    simp [hfields.1]
  have htri1 : tripleSessions (updateUser (markSessionUsed db s.sid)
      (verifySuccessUser u channel now)) u.uid channel identifier = [] :=
    tripleSessions_markUsed_single db u.uid channel identifier s htri
  have hflag : channelVerified (verifySuccessUser u channel now) channel = true := by
    have hch2 := hch
    rw [Bool.or_eq_true] at hch2
    rcases hch2 with h | h
    · rw [eq_of_beq h]
      simp [channelVerified, verifySuccessUser,
        show (("email" : String) == "sms") = false from by decide]
    · rw [eq_of_beq h]
      simp [channelVerified, verifySuccessUser,
        show (("sms" : String) == "email") = false from by decide]
  have hu1 : (if channel == "email"
      then (verifySuccessUser u channel now).email == some identifier
      else (verifySuccessUser u channel now).phone == some identifier) = true := by
    rw [hfields.2.1, hfields.2.2.1]
    exact hu
  have hst1 : getStoredPasswordHash (verifySuccessUser u channel now) = some stored := by
    rw [hfields.2.2.2]
    exact hst
  have hfind1 : findLatestSession (updateUser (markSessionUsed db s.sid)
      (verifySuccessUser u channel now)) (verifySuccessUser u channel now).uid
      channel identifier = none := by
    rw [hfields.1]
    exact findLatest_of_none _ _ _ _ htri1
  have hv2 : verifyOtp (updateUser (markSessionUsed db s.sid)
      (verifySuccessUser u channel now)) now2 channel identifier password otp
      = (updateUser (markSessionUsed db s.sid) (verifySuccessUser u channel now),
         errResp 400 "No OTP found. Request again.") := by
    rw [verifyOtp_valid_eq _ now2 channel identifier password otp hch hidne
      (by rw [hotpt]; exact hotpne) hpw hadm]
    rw [hnorm, hotpt]
    exact verifyOtpAuthed_no_session _ now2 channel identifier password otp
      (verifySuccessUser u channel now) stored
      (findUser_single _ _ channel identifier husers1 hu1) hst1 hcmp hfind1
  refine ⟨by rw [hv], by rw [hv]; exact husers1, hflag, by rw [hv]; exact htri1,
    by rw [hv, hv2]⟩

/-- C7 witness: `uEx` verifies code "111111" against `adbSes` at time
2000; the response carries a token and repeating the same verification
at time 2500 fails with "No OTP found. Request again.". -/
theorem verify_success_exactly_once_witness :
    (verifyOtp (verifyOtp adbSes 2000 "email" "a@b.c" "password123" "111111").1 2500
      "email" "a@b.c" "password123" "111111").2
      = errResp 400 "No OTP found. Request again." :=
  (verify_success_exactly_once adbSes uEx ⟨"password123"⟩ sEx 2000 2500 "email"
    "a@b.c" "password123" "111111" (by decide) (by decide) (by decide) (by decide)
    (by decide) (by decide) (by decide) (by decide) (by decide) (by decide)
    (by decide) (by decide) (by decide) (by decide) (by decide)).2.2.2.2


/-! ## C10 -/

/-- C10: when a request-otp call passes user lookup, password check and
the not-already-verified check and the delivery collaborator then
throws, the caller gets a 500 Internal error but the store mutation is
not rolled back: it is exactly `requestOtpEffect` (previously unused
triple sessions marked used, new unused session created), and the
never-delivered code still verifies successfully within its window. -/
theorem requestOtp_delivery_failure_state_kept (db : AuthDb) (now now2 : Nat)
    (channel identifierRaw password otp : String) (user : User) (stored : BcryptHash)
    (hch : (channel == "email" || channel == "sms") = true)
    (hid : (jsTrim identifierRaw == "") = false)
    (hpw : passwordOk password = true)
    (hfe : (channel == "email" && !(isEmail (normIdent channel identifierRaw))) = false)
    (hfs : (channel == "sms" && !(isE164 (normIdent channel identifierRaw))) = false)
    (hadm : (normIdent channel identifierRaw == STATIC_ADMIN_EMAIL_FINAL) = false)
    (huser : findUser db channel (normIdent channel identifierRaw) = some user)
    (hst : getStoredPasswordHash user = some stored)
    (hcmp : bcryptCompare password stored = true)
    (hver : channelVerified user channel = false)
    (hotpt : jsTrim otp = otp)
    (hotpne : (otp == "") = false)
    (hwin : ¬(now + 5 * 60 * 1000 < now2)) :
    (requestOtp db now channel identifierRaw password otp false).2
      = errResp 500 "Failed to login" ∧
    (requestOtp db now channel identifierRaw password otp false).1
      = requestOtpEffect db now channel (normIdent channel identifierRaw) user.uid otp ∧
    tripleSessions (requestOtpEffect db now channel (normIdent channel identifierRaw)
        user.uid otp) user.uid channel (normIdent channel identifierRaw)
      = [newOtpSession db now channel (normIdent channel identifierRaw) user.uid otp] ∧
    (verifyOtp (requestOtpEffect db now channel (normIdent channel identifierRaw)
        user.uid otp) now2 channel identifierRaw password otp).2
      = tokenResp (mkUserToken (verifySuccessUser user channel now2)) none := by
  have e1 : requestOtp db now channel identifierRaw password otp false
      = (requestOtpEffect db now channel (normIdent channel identifierRaw) user.uid otp,
         errResp 500 "Failed to login") := by
    rw [requestOtp_valid_eq db now channel identifierRaw password otp false
      hch hid hpw hfe hfs hadm]
    rw [requestOtpAuthed_creates db now channel (normIdent channel identifierRaw)
      password otp false user stored huser hst hcmp hver]
    rfl
  have htri := tripleSessions_effect db now channel (normIdent channel identifierRaw)
    user.uid otp
  have huser1 : findUser (requestOtpEffect db now channel
      (normIdent channel identifierRaw) user.uid otp) channel
      (normIdent channel identifierRaw) = some user := huser
  refine ⟨by rw [e1], by rw [e1], htri, ?_⟩
  rw [verifyOtp_valid_eq _ now2 channel identifierRaw password otp hch hid
    (by rw [hotpt]; exact hotpne) hpw hadm]
  rw [hotpt]
  rw [verifyOtpAuthed_success (requestOtpEffect db now channel
      (normIdent channel identifierRaw) user.uid otp) now2 channel
    (normIdent channel identifierRaw) password otp user stored
    (newOtpSession db now channel (normIdent channel identifierRaw) user.uid otp)
    huser1 hst hcmp (findLatest_of_single _ _ _ _ _ htri) hwin
    (by show (0 : Nat) < 5; decide)
    (beq_self_eq_true (hashOtp (normIdent channel identifierRaw) otp))]

/-- C10 witness: delivery failure for `uEx`'s OTP request at time 1000;
the undelivered code "111111" still verifies at time 2000. -/
theorem requestOtp_delivery_failure_state_kept_witness :
    (verifyOtp (requestOtpEffect adbEx 1000 "email" (normIdent "email" "a@b.c")
        uEx.uid "111111") 2000 "email" "a@b.c" "password123" "111111").2
      = tokenResp (mkUserToken (verifySuccessUser uEx "email" 2000)) none :=
  (requestOtp_delivery_failure_state_kept adbEx 1000 2000 "email" "a@b.c"
    "password123" "111111" uEx ⟨"password123"⟩ (by decide) (by decide) (by decide)
    (by decide) (by decide) (by decide) (by decide) (by decide) (by decide)
    (by decide) (by decide) (by decide) (by decide)).2.2.2

end SAV
